import Mathlib

/-!
Shallow embedding of the retrieval evaluator (`4_evaluator.py`) of the
RAG test-set generation repository, together with theorems settling the
claims about it.

Python strings are modelled as `List Char` (`PyStr`), Python floats that
carry metric values as `Rat`, and a float not-a-number result as `none` in
an `Option Rat`.  The `source_file` cell of a row, after `pandas.read_csv`,
is either a string or the float NaN (a missing cell); this is captured by
`SourceCell`, whose Python truthiness and `str(...)` rendering are modelled
faithfully (NaN is truthy in Python and renders as the text "nan").
-/

abbrev PyStr := List Char

/-- Python `needle in hay` on strings: substring containment (the needle
is a contiguous run of the haystack; the empty string is contained in
every string). -/
def pyIn : PyStr → PyStr → Bool
  | needle, [] => needle.isEmpty
  | needle, hay@(_ :: t) => needle.isPrefixOf hay || pyIn needle t

/-- Python `s.strip()`: remove leading and trailing whitespace. -/
def pyStrip (s : PyStr) : PyStr :=
  ((s.dropWhile Char.isWhitespace).reverse.dropWhile Char.isWhitespace).reverse

/-- Python `s.split()` with no argument: split on whitespace runs,
dropping empty pieces. -/
def pySplit (s : PyStr) : List PyStr :=
  (s.splitOnP Char.isWhitespace).filter (fun w => !w.isEmpty)

/-- The normalization applied in the text-containment fallback of
`calculate_metrics`: Python `" ".join(text.lower().split())`. -/
def normalizeText (s : PyStr) : PyStr :=
  List.intercalate [' '] (pySplit (s.map Char.toLower))

/-- The value of the `source_file` cell of a row after `pandas.read_csv`:
either a string, or the float NaN used by pandas for a missing cell. -/
inductive SourceCell : Type
  | strv (s : PyStr)
  | nan
deriving DecidableEq

/-- Python truthiness of the `source_file` cell: a string is truthy iff
non-empty; the float NaN is truthy, as `bool` of any NaN float is `True`. -/
def SourceCell.toBool : SourceCell → Bool
  | .strv s => !s.isEmpty
  | .nan => true

/-- Python `str(...)` applied to a `source_file` cell: the identity on a
string; the float NaN renders as the three characters `nan`. -/
def SourceCell.render : SourceCell → PyStr
  | .strv s => s
  | .nan => ['n', 'a', 'n']

/-- A list-typed CSV cell before `parse_list_cell`: already a list, a
missing value (NaN), a string that `ast.literal_eval` fails on, a string
that parses to a non-list value, a string that parses to a list, or a
value of any other type. -/
inductive ListCell (α : Type) : Type
  | lst (xs : List α)
  | nanv
  | strUnparseable
  | strNonList
  | strList (xs : List α)
  | other

/-- A malformed list-typed cell in the sense of the error-handling claim:
unparseable text, or text parsing to a non-list value. -/
def ListCell.isMalformed {α : Type} : ListCell α → Bool
  | .strUnparseable => true
  | .strNonList => true
  | _ => false

/-- Embedding of `parse_list_cell` of `4_evaluator.py`: a list is kept,
NaN gives `[]`, a string is parsed (`[]` when parsing fails or the result
is not a list), anything else gives `[]`. -/
def parse_list_cell {α : Type} : ListCell α → List α
  | .lst xs => xs
  | .nanv => []
  | .strUnparseable => []
  | .strNonList => []
  | .strList xs => xs
  | .other => []

/-- The enumerate-and-return-first-match loop shared by the two scanning
stages: returns `(true, i+1)` for the first 0-based index `i` (counting
from start value `n`) whose element satisfies `p`, else `(false, 0)`. -/
def scanFirst (p : PyStr → Bool) : List PyStr → Nat → Bool × Nat
  | [], _ => (false, 0)
  | x :: rest, i => if p x then (true, i + 1) else scanFirst p rest (i + 1)

/-- Embedding of `contains_source_file` of `4_evaluator.py`. -/
def contains_source_file (source_file : SourceCell) (retrieved_files : List PyStr) :
    Bool × Nat :=
  if !source_file.toBool || retrieved_files.isEmpty then (false, 0)
  else
    let source_norm := pyStrip source_file.render
    scanFirst (fun uri => !source_norm.isEmpty && pyIn source_norm uri) retrieved_files 0

/-- A row of the evaluated dataframe after the `parse_list_cell` passes in
`main`: the four required columns plus the optional `relevance_scores`
column (`none` when the column is absent from the CSV). -/
structure Row : Type where
  reference_contexts : List PyStr
  retrieved_contexts : List PyStr
  retrieved_file : List PyStr
  source_file : SourceCell
  relevance_scores : Option (List Rat)

/-- Stage (a) of hit determination in `calculate_metrics`: the guarded
call `if source_file and retrieved_files: hit, rank = contains_source_file(...)`,
with `(hit, rank) = (False, 0)` when the guard fails. -/
def stageA (row : Row) : Bool × Nat :=
  if row.source_file.toBool && !row.retrieved_file.isEmpty then
    contains_source_file row.source_file row.retrieved_file
  else (false, 0)

/-- The containment test of the text fallback:
`clean_gt in clean_ret or clean_ret in clean_gt`. -/
def textContains (clean_gt clean_ret : PyStr) : Bool :=
  pyIn clean_gt clean_ret || pyIn clean_ret clean_gt

/-- Stage (b) of hit determination in `calculate_metrics`: the text
containment loop over `retrieved_contexts`, with the reference text taken
as the first element of `reference_contexts` (empty string if absent). -/
def stageB (row : Row) : Bool × Nat :=
  let gt_text := row.reference_contexts.headD []
  let clean_gt := normalizeText gt_text
  scanFirst (fun ret_text => textContains clean_gt (normalizeText ret_text))
    row.retrieved_contexts 0

/-- The `(hit, rank)` pair computed by `calculate_metrics`: stage (b) runs
only when stage (a) left `hit` false. -/
def rowHitRank (row : Row) : Bool × Nat :=
  let a := stageA row
  if a.1 then a else stageB row

/-- The five derived metric columns of one row. `custom_mrr` and
`custom_precision_at_k` are Python floats, modelled as `Rat`;
`precision_at_k_relevance` is a float or NaN, modelled as `Option Rat`
with `none` for NaN. -/
structure Metrics : Type where
  custom_hit_rate : Nat
  custom_mrr : Rat
  custom_precision_at_k : Rat
  custom_recall_at_k : Nat
  precision_at_k_relevance : Option Rat
deriving DecidableEq

/-- Embedding of `calculate_metrics` of `4_evaluator.py`, parameterized by
the configured `TOP_K` (an environment integer, default 3).  Relevance
scores are modelled as rationals, so the `float(score)` conversion of the
source never fails in the model; the guard `k > 0 and k == len(retrieved_list)`
is kept as in the source. -/
def calculate_metrics (topK : Int) (row : Row) : Metrics :=
  let retrieved_list := row.retrieved_contexts
  let hr := rowHitRank row
  let hit := hr.1
  let rank := hr.2
  let hit_rate : Nat := if hit then 1 else 0
  let mrr : Rat := if hit then 1 / (rank : Rat) else 0
  let precision_k : Int := max topK 1
  let precision : Rat := if hit then 1 / (precision_k : Rat) else 0
  let recall_at_k : Nat := if hit then 1 else 0
  let pkr : Option Rat :=
    match row.relevance_scores with
    | some scores =>
        let k := scores.length
        if 0 < k ∧ k = retrieved_list.length then
          some (((scores.countP (fun score => (7 : Rat) / 10 ≤ score) : Nat) : Rat) / (k : Rat))
        else none
    | none => none
  { custom_hit_rate := hit_rate, custom_mrr := mrr, custom_precision_at_k := precision,
    custom_recall_at_k := recall_at_k, precision_at_k_relevance := pkr }

/-- An output row: the input row with the metric columns appended, as done
by `pd.concat([df, metrics_df], axis=1)` in `main`. -/
structure OutRow : Type where
  row : Row
  metrics : Metrics

/-- Per-row evaluation: the input row is carried through unchanged and the
metric columns are appended. -/
def evaluateRow (topK : Int) (r : Row) : OutRow :=
  { row := r, metrics := calculate_metrics topK r }

/-- Batch evaluation: `df.apply(calculate_metrics, axis=1)` followed by
column concatenation, row-independently. -/
def evaluate (topK : Int) (rows : List Row) : List OutRow :=
  rows.map (evaluateRow topK)

/-! Generic facts about the substring test and the first-match scan. -/

theorem pyIn_nil_left (l : PyStr) : pyIn [] l = true := by
  cases l with
  | nil => rfl
  | cons a t => simp [pyIn, List.isPrefixOf]

theorem scanFirst_eq_of_first (p : PyStr → Bool) (xs : List PyStr) (i : Nat) (x : PyStr)
    (hget : xs.get? i = some x) (hx : p x = true)
    (hmin : ∀ j, j < i → ∀ y, xs.get? j = some y → p y = false) :
    ∀ n, scanFirst p xs n = (true, n + i + 1) := by
  induction xs generalizing i with
  | nil => simp at hget
  | cons a rest ih =>
    intro n
    cases i with
    | zero =>
      simp only [List.get?_cons_zero, Option.some.injEq] at hget
      subst hget
      simp [scanFirst, hx]
    | succ i' =>
      have ha : p a = false := hmin 0 (Nat.succ_pos i') a rfl
      have hrec := ih i' (by simpa using hget)
        (fun j hj y hy => hmin (j + 1) (Nat.succ_lt_succ hj) y (by simpa using hy)) (n + 1)
      simp only [scanFirst, ha, Bool.false_eq_true, if_false, hrec, Prod.mk.injEq, true_and]
      omega

theorem scanFirst_eq_false_of_all (p : PyStr → Bool) (xs : List PyStr)
    (h : ∀ x ∈ xs, p x = false) : ∀ n, scanFirst p xs n = (false, 0) := by
  induction xs with
  | nil => intro n; rfl
  | cons a rest ih =>
    intro n
    have ha : p a = false := h a (List.mem_cons_self a rest)
    simp [scanFirst, ha, ih (fun x hx => h x (List.mem_cons_of_mem a hx))]

theorem scanFirst_fst_true_of_mem (p : PyStr → Bool) (xs : List PyStr) (x : PyStr)
    (hmem : x ∈ xs) (hx : p x = true) : ∀ n, (scanFirst p xs n).1 = true := by
  induction xs with
  | nil => cases hmem
  | cons a rest ih =>
    intro n
    by_cases hpa : p a = true
    · simp [scanFirst, hpa]
    · have hxr : x ∈ rest := by
        cases hmem with
        | head => exact absurd hx hpa
        | tail _ h => exact h
      simp [scanFirst, hpa, ih hxr]

theorem scanFirst_rank_pos (p : PyStr → Bool) (xs : List PyStr) :
    ∀ n, (scanFirst p xs n).1 = true → n < (scanFirst p xs n).2 := by
  induction xs with
  | nil => intro n h; simp [scanFirst] at h
  | cons a rest ih =>
    intro n h
    by_cases hpa : p a = true
    · simp [scanFirst, hpa]
    · have h' : (scanFirst p rest (n + 1)).1 = true := by
        simpa [scanFirst, hpa] using h
      have := ih (n + 1) h'
      simp only [scanFirst, hpa, Bool.false_eq_true, if_false] at *
      omega

theorem contains_source_file_rank_pos (sf : SourceCell) (files : List PyStr)
    (h : (contains_source_file sf files).1 = true) :
    0 < (contains_source_file sf files).2 := by
  simp only [contains_source_file] at h ⊢
  by_cases hc : (!sf.toBool || files.isEmpty) = true
  · rw [if_pos hc] at h
    simp at h
  · rw [if_neg hc] at h ⊢
    exact scanFirst_rank_pos _ _ 0 h

theorem stageA_rank_pos (row : Row) (h : (stageA row).1 = true) : 0 < (stageA row).2 := by
  simp only [stageA] at h ⊢
  by_cases hc : (row.source_file.toBool && !row.retrieved_file.isEmpty) = true
  · rw [if_pos hc] at h ⊢
    exact contains_source_file_rank_pos _ _ h
  · rw [if_neg hc] at h
    simp at h

theorem stageB_rank_pos (row : Row) (h : (stageB row).1 = true) : 0 < (stageB row).2 := by
  simp only [stageB] at h ⊢
  exact scanFirst_rank_pos _ _ 0 h

theorem rowHitRank_rank_pos (row : Row) (h : (rowHitRank row).1 = true) :
    1 ≤ (rowHitRank row).2 := by
  simp only [rowHitRank] at h ⊢
  by_cases hA : (stageA row).1 = true
  · simpa [hA] using stageA_rank_pos row hA
  · simp only [hA, Bool.false_eq_true, if_false] at h ⊢
    exact stageB_rank_pos row h

/-! Claim C1. -/

/-- The failing input for claim C1: a row whose `source_file` cell is the
float NaN of a missing CSV cell, with a retrieved identifier whose text
happens to contain the three characters `nan`. -/
def c1Row : Row :=
  { reference_contexts := []
    retrieved_contexts := []
    retrieved_file := ["s3://kb/finanzas.md".data]
    source_file := SourceCell.nan
    relevance_scores := none }

/-- C1: the claim states that a row with a missing (NaN) `source_file`
skips stage (a) and can never obtain an identifier hit.  The code instead
treats the float NaN as truthy (`bool(nan)` is `True` in Python) and
renders it as the text `nan`, which substring-matches identifiers: on
`c1Row` stage (a) itself reports a hit, and the row scores
`custom_hit_rate = 1` at rank 1 even though stage (b) has nothing to
match.  This refutes the claim on the code and exhibits the slip. -/
theorem C1_nan_source_file_produces_identifier_hit :
    (stageA c1Row).1 = true ∧
    rowHitRank c1Row = (true, 1) ∧
    (calculate_metrics 3 c1Row).custom_hit_rate = 1 := by
  refine ⟨by decide, by decide, ?_⟩
  have h : rowHitRank c1Row = (true, 1) := by decide
  simp [calculate_metrics, h]

/-! Claim C2. -/

/-- A row refuting claim C2 as literally stated: `source_file` is the
non-empty string of one space, `retrieved_file` is non-empty, and the
whitespace-trimmed `source_file` (the empty string) is a substring of the
rank-1 identifier, so the claim predicts a hit with `custom_mrr = 1`. -/
def c2CexRow : Row :=
  { reference_contexts := []
    retrieved_contexts := []
    retrieved_file := ["x".data]
    source_file := SourceCell.strv (" ".data)
    relevance_scores := none }

/-- C2 counterexample: on `c2CexRow` the hypotheses of the claim hold — the
`source_file` string is non-empty, `retrieved_file` is non-empty, and the
trimmed `source_file` is contained in the identifier at rank 1 — yet the
code scores the row as a miss, because the loop guard
`if source_norm and source_norm in str(uri)` skips an empty trimmed
identifier. -/
theorem C2_counterexample_whitespace_source :
    (" ".data : PyStr) ≠ [] ∧
    c2CexRow.retrieved_file ≠ [] ∧
    pyIn (pyStrip (" ".data)) ("x".data) = true ∧
    (calculate_metrics 3 c2CexRow).custom_hit_rate = 0 := by
  refine ⟨by decide, by decide, by decide, ?_⟩
  have h : rowHitRank c2CexRow = (false, 0) := by decide
  simp [calculate_metrics, h]

/-- C2 (amended: the whitespace-trimmed `source_file` must additionally be
non-empty): for every row whose `source_file` string trims to a non-empty
string and whose `retrieved_file` is non-empty, if `i` is the smallest
0-based index whose identifier contains the trimmed `source_file` as a
substring, the row is a hit at rank `i + 1` with `custom_hit_rate = 1`
and `custom_mrr = 1 / (i + 1)`. -/
theorem C2_identifier_match_hit (topK : Int) (row : Row) (s u : PyStr) (i : Nat)
    (hs : row.source_file = SourceCell.strv s)
    (hns : pyStrip s ≠ [])
    (hget : row.retrieved_file.get? i = some u)
    (hu : pyIn (pyStrip s) u = true)
    (hmin : ∀ j, j < i → ∀ v, row.retrieved_file.get? j = some v →
      pyIn (pyStrip s) v = false) :
    rowHitRank row = (true, i + 1) ∧
    (calculate_metrics topK row).custom_hit_rate = 1 ∧
    (calculate_metrics topK row).custom_mrr = 1 / ((i : Rat) + 1) := by
  have hs0 : s.isEmpty = false := by
    cases s with
    | nil => exact absurd rfl hns
    | cons a t => rfl
  have hne : (pyStrip s).isEmpty = false := by
    cases hps : pyStrip s with
    | nil => exact absurd hps hns
    | cons a t => rfl
  have hfne : row.retrieved_file.isEmpty = false := by
    cases hf : row.retrieved_file with
    | nil => rw [hf] at hget; simp at hget
    | cons a t => rfl
  have hscan := scanFirst_eq_of_first
    (fun uri => !(pyStrip s).isEmpty && pyIn (pyStrip s) uri) row.retrieved_file i u hget
    (by simp [hne, hu]) (fun j hj v hv => by simp [hne, hmin j hj v hv]) 0
  have hA : stageA row = (true, i + 1) := by
    simp [stageA, hs, hs0, hfne, contains_source_file, SourceCell.toBool, SourceCell.render]
    simpa using hscan
  have hR : rowHitRank row = (true, i + 1) := by
    simp [rowHitRank, hA]
  refine ⟨hR, ?_, ?_⟩
  · simp [calculate_metrics, hR]
  · simp [calculate_metrics, hR]

/-- Scenario A of the spec, used as the witness input for the amended C2:
`source_file = "doc_001"` against
`retrieved_file = ["s3://kb/doc_002.md", "s3://kb/doc_001.md"]`. -/
def c2Row : Row :=
  { reference_contexts := []
    retrieved_contexts := []
    retrieved_file := ["s3://kb/doc_002.md".data, "s3://kb/doc_001.md".data]
    source_file := SourceCell.strv ("doc_001".data)
    relevance_scores := none }

/-- Witness for the amended C2 at Scenario A: the hit lands at rank 2 and
`custom_mrr = 1/2`. -/
theorem C2_identifier_match_hit_witness :
    rowHitRank c2Row = (true, 2) ∧
    (calculate_metrics 3 c2Row).custom_hit_rate = 1 ∧
    (calculate_metrics 3 c2Row).custom_mrr = 1 / ((1 : Rat) + 1) :=
  C2_identifier_match_hit 3 c2Row ("doc_001".data) ("s3://kb/doc_001.md".data) 1
    rfl (by decide) rfl (by decide)
    (by
      intro j hj v hv
      have hj0 : j = 0 := by omega
      subst hj0
      simp only [c2Row, List.get?_cons_zero, Option.some.injEq] at hv
      subst hv
      decide)

/-! Claim C3. -/

/-- C3: when stage (a) found no hit, the text containment fallback scans
`retrieved_contexts` in rank order after normalizing (lower-casing and
collapsing whitespace runs, as `normalizeText` does); the first 0-based
index `i` where the normalized reference is a substring of the normalized
retrieved text or vice versa is a hit at rank `i + 1`, with
`custom_hit_rate = 1` and `custom_mrr = 1 / (i + 1)`. -/
theorem C3_text_containment_fallback (topK : Int) (row : Row) (t : PyStr) (i : Nat)
    (ha : (stageA row).1 = false)
    (hget : row.retrieved_contexts.get? i = some t)
    (ht : textContains (normalizeText (row.reference_contexts.headD []))
      (normalizeText t) = true)
    (hmin : ∀ j, j < i → ∀ v, row.retrieved_contexts.get? j = some v →
      textContains (normalizeText (row.reference_contexts.headD []))
        (normalizeText v) = false) :
    rowHitRank row = (true, i + 1) ∧
    (calculate_metrics topK row).custom_hit_rate = 1 ∧
    (calculate_metrics topK row).custom_mrr = 1 / ((i : Rat) + 1) := by
  have hscan := scanFirst_eq_of_first
    (fun ret_text => textContains (normalizeText (row.reference_contexts.headD []))
      (normalizeText ret_text))
    row.retrieved_contexts i t hget ht (fun j hj v hv => hmin j hj v hv) 0
  have hB : stageB row = (true, i + 1) := by
    simp only [stageB]
    simpa using hscan
  have hR : rowHitRank row = (true, i + 1) := by
    simp [rowHitRank, ha, hB]
  refine ⟨hR, ?_, ?_⟩
  · simp [calculate_metrics, hR]
  · simp [calculate_metrics, hR]

/-- Scenario B of the spec, used as the witness input for C3: the
reference text is found inside the single retrieved text after
normalization. -/
def c3Row : Row :=
  { reference_contexts := ["La tasa es variable".data]
    retrieved_contexts := ["Informacion sobre la tasa es variable y sus condiciones".data]
    retrieved_file := []
    source_file := SourceCell.strv []
    relevance_scores := none }

/-- Witness for C3 at Scenario B: hit at rank 1 via text containment,
`custom_mrr = 1`. -/
theorem C3_text_containment_fallback_witness :
    rowHitRank c3Row = (true, 1) ∧
    (calculate_metrics 3 c3Row).custom_hit_rate = 1 ∧
    (calculate_metrics 3 c3Row).custom_mrr = 1 / ((0 : Rat) + 1) :=
  C3_text_containment_fallback 3 c3Row
    ("Informacion sobre la tasa es variable y sus condiciones".data) 0
    (by decide) rfl (by decide)
    (fun j hj v hv => absurd hj (by omega))

/-! Claim C9. -/

/-- C9: when stage (a) found no hit, a reference or retrieved text that
normalizes to the empty string always produces a text-containment hit,
because the empty string is a substring of every string: with non-empty
`retrieved_contexts` and an empty normalized reference the hit lands at
rank 1 with `custom_mrr = 1`; symmetrically, any retrieved entry that
normalizes to the empty string forces a hit against any reference. -/
theorem C9_empty_normalized_text_always_hits (topK : Int) (row : Row)
    (ha : (stageA row).1 = false) :
    (row.retrieved_contexts ≠ [] →
      normalizeText (row.reference_contexts.headD []) = [] →
      rowHitRank row = (true, 1) ∧
      (calculate_metrics topK row).custom_hit_rate = 1 ∧
      (calculate_metrics topK row).custom_mrr = 1) ∧
    (∀ i t, row.retrieved_contexts.get? i = some t → normalizeText t = [] →
      (calculate_metrics topK row).custom_hit_rate = 1) := by
  constructor
  · intro hne hgt
    have hR : rowHitRank row = (true, 1) := by
      cases hr : row.retrieved_contexts with
      | nil => exact absurd hr hne
      | cons x rest =>
        have hB : stageB row = (true, 1) := by
          simp only [stageB, hgt, hr, scanFirst]
          simp [textContains, pyIn_nil_left]
        simp [rowHitRank, ha, hB]
    refine ⟨hR, ?_, ?_⟩
    · simp [calculate_metrics, hR]
    · simp [calculate_metrics, hR]
  · intro i t hget hnt
    have hmem : t ∈ row.retrieved_contexts := List.get?_mem hget
    have hB1 : (stageB row).1 = true := by
      simp only [stageB]
      exact scanFirst_fst_true_of_mem _ _ t hmem
        (by simp [textContains, hnt, pyIn_nil_left]) 0
    have hR1 : (rowHitRank row).1 = true := by
      simp [rowHitRank, ha, hB1]
    simp [calculate_metrics, hR1]

/-- Witness input for C9: the reference text is whitespace-only, so it
normalizes to the empty string; the single retrieved text is arbitrary. -/
def c9Row : Row :=
  { reference_contexts := ["  \t ".data]
    retrieved_contexts := ["hola mundo".data]
    retrieved_file := []
    source_file := SourceCell.strv []
    relevance_scores := none }

/-- Witness for C9: on `c9Row` the whitespace-only reference yields a hit
at rank 1 with `custom_mrr = 1`, and the retrieved entry of index 0 of a
row whose retrieved text is empty also yields a hit. -/
theorem C9_empty_normalized_text_always_hits_witness :
    (rowHitRank c9Row = (true, 1) ∧
      (calculate_metrics 3 c9Row).custom_hit_rate = 1 ∧
      (calculate_metrics 3 c9Row).custom_mrr = 1) ∧
    (calculate_metrics 3 {
      reference_contexts := ["La tasa".data]
      retrieved_contexts := ["  ".data]
      retrieved_file := []
      source_file := SourceCell.strv []
      relevance_scores := none }).custom_hit_rate = 1 :=
  ⟨(C9_empty_normalized_text_always_hits 3 c9Row (by decide)).1 (by decide) (by decide),
   (C9_empty_normalized_text_always_hits 3 _ (by decide)).2 0 ("  ".data) rfl (by decide)⟩

/-! Claim C4. -/

/-- C4: `precision_at_k_relevance` is the fraction of relevance scores
that are at least 0.7 exactly when the scores are present, non-empty and
of the same length as `retrieved_contexts`; in every other case it is
not-a-number (`none`), and the value of `relevance_scores` never affects
the other four metrics of the row. -/
theorem C4_precision_at_k_relevance_spec (topK : Int) (row : Row) :
    (∀ scores, row.relevance_scores = some scores → scores ≠ [] →
      scores.length = row.retrieved_contexts.length →
      (calculate_metrics topK row).precision_at_k_relevance =
        some (((scores.countP (fun score => (7 : Rat) / 10 ≤ score) : Nat) : Rat) /
          (scores.length : Rat))) ∧
    (∀ scores, row.relevance_scores = some scores →
      scores.length ≠ row.retrieved_contexts.length →
      (calculate_metrics topK row).precision_at_k_relevance = none) ∧
    (∀ scores, row.relevance_scores = some scores → scores = [] →
      (calculate_metrics topK row).precision_at_k_relevance = none) ∧
    (row.relevance_scores = none →
      (calculate_metrics topK row).precision_at_k_relevance = none) ∧
    (∀ rs : Option (List Rat),
      (calculate_metrics topK { row with relevance_scores := rs }).custom_hit_rate =
        (calculate_metrics topK row).custom_hit_rate ∧
      (calculate_metrics topK { row with relevance_scores := rs }).custom_mrr =
        (calculate_metrics topK row).custom_mrr ∧
      (calculate_metrics topK { row with relevance_scores := rs }).custom_precision_at_k =
        (calculate_metrics topK row).custom_precision_at_k ∧
      (calculate_metrics topK { row with relevance_scores := rs }).custom_recall_at_k =
        (calculate_metrics topK row).custom_recall_at_k) := by
  refine ⟨?_, ?_, ?_, ?_, ?_⟩
  · intro scores hsc hne hlen
    have hpos : 0 < scores.length := List.length_pos.mpr hne
    have hne2 : row.retrieved_contexts ≠ [] := List.length_pos.mp (hlen ▸ hpos)
    simp [calculate_metrics, hsc, hlen, hpos, hne2]
  · intro scores hsc hlen
    simp [calculate_metrics, hsc, hlen]
  · intro scores hsc hnil
    subst hnil
    simp [calculate_metrics, hsc]
  · intro h
    simp [calculate_metrics, h]
  · intro rs
    exact ⟨rfl, rfl, rfl, rfl⟩

/-- Scenario D of the spec, used as the witness input for C4: three
relevance scores for three retrieved texts, two of them at least 0.7. -/
def c4Row : Row :=
  { reference_contexts := ["r".data]
    retrieved_contexts := ["a".data, "b".data, "c".data]
    retrieved_file := []
    source_file := SourceCell.strv []
    relevance_scores := some [(9 : Rat) / 10, (4 : Rat) / 10, (75 : Rat) / 100] }

/-- Witness for C4 at Scenario D: `precision_at_k_relevance = 2/3`. -/
theorem C4_precision_at_k_relevance_spec_witness :
    (calculate_metrics 3 c4Row).precision_at_k_relevance = some ((2 : Rat) / 3) := by
  have h := (C4_precision_at_k_relevance_spec 3 c4Row).1
    [(9 : Rat) / 10, (4 : Rat) / 10, (75 : Rat) / 100] rfl (by simp) rfl
  rw [h]
  norm_num [List.countP_cons, List.countP_nil]

/-! Claim C5. -/

/-- C5: a malformed list-typed cell (unparseable text, or text parsing to
a non-list value) degrades to the empty list instead of raising, and a row
all of whose list cells are malformed is scored as a plain miss — the
scoring function is total, so no exception can abort the batch. -/
theorem C5_malformed_cells_degrade (topK : Int) :
    (∀ (α : Type) (c : ListCell α), c.isMalformed = true → parse_list_cell c = []) ∧
    (∀ (sf : SourceCell) (c1 c2 c3 : ListCell PyStr) (c4 : ListCell Rat),
      c1.isMalformed = true → c2.isMalformed = true → c3.isMalformed = true →
      c4.isMalformed = true →
      calculate_metrics topK {
        reference_contexts := parse_list_cell c1
        retrieved_contexts := parse_list_cell c2
        retrieved_file := parse_list_cell c3
        source_file := sf
        relevance_scores := some (parse_list_cell c4) } =
      { custom_hit_rate := 0
        custom_mrr := 0
        custom_precision_at_k := 0
        custom_recall_at_k := 0
        precision_at_k_relevance := none }) := by
  have hparse : ∀ (α : Type) (c : ListCell α), c.isMalformed = true → parse_list_cell c = [] := by
    intro α c hc
    cases c <;> simp_all [ListCell.isMalformed, parse_list_cell]
  refine ⟨hparse, ?_⟩
  intro sf c1 c2 c3 c4 h1 h2 h3 h4
  rw [hparse PyStr c1 h1, hparse PyStr c2 h2, hparse PyStr c3 h3, hparse Rat c4 h4]
  simp [calculate_metrics, rowHitRank, stageA, stageB, scanFirst, contains_source_file]

/-- Witness for C5: an unparseable cell and a non-list cell both degrade
to `[]`, and the resulting all-malformed row scores as an all-miss row. -/
theorem C5_malformed_cells_degrade_witness :
    parse_list_cell (ListCell.strUnparseable : ListCell PyStr) = [] ∧
    calculate_metrics 3 {
      reference_contexts := parse_list_cell (ListCell.strUnparseable : ListCell PyStr)
      retrieved_contexts := parse_list_cell (ListCell.strNonList : ListCell PyStr)
      retrieved_file := parse_list_cell (ListCell.strUnparseable : ListCell PyStr)
      source_file := SourceCell.nan
      relevance_scores := some (parse_list_cell (ListCell.strNonList : ListCell Rat)) } =
    { custom_hit_rate := 0
      custom_mrr := 0
      custom_precision_at_k := 0
      custom_recall_at_k := 0
      precision_at_k_relevance := none } :=
  ⟨(C5_malformed_cells_degrade 3).1 PyStr ListCell.strUnparseable rfl,
   (C5_malformed_cells_degrade 3).2 SourceCell.nan ListCell.strUnparseable
     ListCell.strNonList ListCell.strUnparseable ListCell.strNonList rfl rfl rfl rfl⟩

/-! Claim C6. -/

/-- C6: evaluation never mutates the four input columns of any row — the
output table carries every input row unchanged next to the appended
metric columns. -/
theorem C6_inputs_never_mutated (topK : Int) (rows : List Row) (i : Nat) :
    ((evaluate topK rows)[i]?).map (fun o => o.row.reference_contexts) =
      (rows[i]?).map (fun r => r.reference_contexts) ∧
    ((evaluate topK rows)[i]?).map (fun o => o.row.retrieved_contexts) =
      (rows[i]?).map (fun r => r.retrieved_contexts) ∧
    ((evaluate topK rows)[i]?).map (fun o => o.row.retrieved_file) =
      (rows[i]?).map (fun r => r.retrieved_file) ∧
    ((evaluate topK rows)[i]?).map (fun o => o.row.relevance_scores) =
      (rows[i]?).map (fun r => r.relevance_scores) := by
  refine ⟨?_, ?_, ?_, ?_⟩ <;>
  · simp only [evaluate, List.getElem?_map]
    cases rows[i]? <;> simp [evaluateRow]

/-! Claim C7. -/

/-- C7: on a hit row `custom_precision_at_k` equals `1 / max(TOP_K, 1)`,
independently of the rank of the hit; on a miss row it equals 0. -/
theorem C7_precision_at_k_constant (topK : Int) (row : Row) :
    ((rowHitRank row).1 = true →
      (calculate_metrics topK row).custom_precision_at_k =
        1 / ((max topK 1 : Int) : Rat)) ∧
    ((rowHitRank row).1 = false →
      (calculate_metrics topK row).custom_precision_at_k = 0) := by
  constructor <;> intro h <;> simp [calculate_metrics, h]

/-- A hit row: the reference text equals the single retrieved text. -/
def hitRow : Row :=
  { reference_contexts := ["a".data]
    retrieved_contexts := ["a".data]
    retrieved_file := []
    source_file := SourceCell.strv []
    relevance_scores := none }

/-- A miss row: nothing to retrieve against a non-empty reference. -/
def missRow : Row :=
  { reference_contexts := ["La tasa es variable".data]
    retrieved_contexts := []
    retrieved_file := []
    source_file := SourceCell.strv []
    relevance_scores := none }

/-- Witness for C7: the hit row at `TOP_K = 3` gets precision `1/3`; the
miss row gets 0. -/
theorem C7_precision_at_k_constant_witness :
    (calculate_metrics 3 hitRow).custom_precision_at_k =
      1 / ((max (3 : Int) 1 : Int) : Rat) ∧
    (calculate_metrics 3 missRow).custom_precision_at_k = 0 :=
  ⟨(C7_precision_at_k_constant 3 hitRow).1 (by decide),
   (C7_precision_at_k_constant 3 missRow).2 (by decide)⟩

/-! Claim C8. -/

/-- C8: a row on which neither stage finds a match is a miss with
`custom_hit_rate = 0`, `custom_mrr = 0`, `custom_recall_at_k = 0` and
`custom_precision_at_k = 0`. -/
theorem C8_miss_scores_zero (topK : Int) (row : Row)
    (h : (rowHitRank row).1 = false) :
    (calculate_metrics topK row).custom_hit_rate = 0 ∧
    (calculate_metrics topK row).custom_mrr = 0 ∧
    (calculate_metrics topK row).custom_recall_at_k = 0 ∧
    (calculate_metrics topK row).custom_precision_at_k = 0 := by
  refine ⟨?_, ?_, ?_, ?_⟩ <;> simp [calculate_metrics, h]

/-- Witness for C8 at Scenario C: empty `retrieved_contexts` (and no
identifier hit) gives the all-zero metrics. -/
theorem C8_miss_scores_zero_witness :
    (calculate_metrics 3 missRow).custom_hit_rate = 0 ∧
    (calculate_metrics 3 missRow).custom_mrr = 0 ∧
    (calculate_metrics 3 missRow).custom_recall_at_k = 0 ∧
    (calculate_metrics 3 missRow).custom_precision_at_k = 0 :=
  C8_miss_scores_zero 3 missRow (by decide)

/-! Claim C10. -/

/-- C10: whenever the hit flag is true the rank is at least 1, so the
reciprocal `1 / rank` never divides by zero: `custom_mrr` lies in `(0, 1]`
on a hit and equals 0 on a miss (and the scoring function is total by
construction). -/
theorem C10_mrr_always_defined (topK : Int) (row : Row) :
    ((rowHitRank row).1 = true →
      1 ≤ (rowHitRank row).2 ∧
      0 < (calculate_metrics topK row).custom_mrr ∧
      (calculate_metrics topK row).custom_mrr ≤ 1) ∧
    ((rowHitRank row).1 = false →
      (calculate_metrics topK row).custom_mrr = 0) := by
  constructor
  · intro h
    have hrank := rowHitRank_rank_pos row h
    have hc : (1 : Rat) ≤ ((rowHitRank row).2 : Rat) := by exact_mod_cast hrank
    have hpos : (0 : Rat) < ((rowHitRank row).2 : Rat) := lt_of_lt_of_le one_pos hc
    have hmrr : (calculate_metrics topK row).custom_mrr =
        1 / ((rowHitRank row).2 : Rat) := by
      simp [calculate_metrics, h]
    refine ⟨hrank, ?_, ?_⟩
    · rw [hmrr]
      exact one_div_pos.mpr hpos
    · rw [hmrr]
      exact (div_le_one hpos).mpr hc
  · intro h
    simp [calculate_metrics, h]

/-- Witness for C10 at the hit row and the miss row. -/
theorem C10_mrr_always_defined_witness :
    (1 ≤ (rowHitRank hitRow).2 ∧
      0 < (calculate_metrics 3 hitRow).custom_mrr ∧
      (calculate_metrics 3 hitRow).custom_mrr ≤ 1) ∧
    (calculate_metrics 3 missRow).custom_mrr = 0 :=
  ⟨(C10_mrr_always_defined 3 hitRow).1 (by decide),
   (C10_mrr_always_defined 3 missRow).2 (by decide)⟩
